import Mathlib

/-
Verification of the shipman maritime chartering data-access layer.

The Go repository layer (internal/db) is shallowly embedded here:

* machine values: `time.Time` instants become `GoTime := Nat` (an abstract
  monotone tick count), `float64` values become `Float64` (their bit
  pattern — the repository never computes with floats, it only moves them),
  `int16` becomes `Int`, `[]byte` becomes `Bytes := List Nat`;
* a `uuid.UUID` is modelled by its canonical 36-character textual form
  together with the proof that it is well formed; `uuid.Parse` accepts
  exactly the well-formed strings;
* Go pointers (`*T`) and SQL nullable scan targets (`sql.NullT`) both
  become `Option`;
* each SQL statement issued by a repository method is translated into an
  explicit function on a list-of-rows model of its table, following the
  statement text (`COALESCE`, `WHERE id = $1`, `ORDER BY`, `RETURNING`)
  and the schema in db/schema.sql / the migration scripts (column defaults,
  `ON DELETE CASCADE` / `ON DELETE SET NULL`, the `set_updated_at` trigger);
* fallible operations return `Except RepoError`.
-/

namespace Shipman

/-! ## Scalar value model -/

/-- A `time.Time` instant, abstracted to a tick count. -/
abbrev GoTime := Nat

/-- A Go `float64` value, identified by its bit pattern: the data-access
layer only transports floats, it never computes with them. -/
structure Float64 where
  bits : Nat
deriving DecidableEq, Repr

/-- A Go `[]byte` value (`nil` and the empty slice both have length 0). -/
abbrev Bytes := List Nat

/-- A Go `int16` value. -/
abbrev GoInt16 := Int

/-- Hex-digit test used by the canonical UUID format. -/
def isHexDigit (c : Char) : Bool :=
  (('0' ≤ c) && (c ≤ '9')) || (('a' ≤ c) && (c ≤ 'f')) || (('A' ≤ c) && (c ≤ 'F'))

/-- Character-wise check of the canonical `8-4-4-4-12` UUID text form,
tracking the position inside the string. -/
def uuidCharsOk : List Char → Nat → Bool
  | [], n => n == 36
  | c :: rest, n =>
    (if n == 8 || n == 13 || n == 18 || n == 23 then c == '-' else isHexDigit c)
      && uuidCharsOk rest (n + 1)

/-- A string is a valid 128-bit identifier iff it is in the canonical
36-character dashed hexadecimal form emitted by `uuid.UUID.String`. -/
def isUuidString (s : String) : Bool :=
  uuidCharsOk s.toList 0

/-- A `uuid.UUID`, represented by its canonical textual form. -/
abbrev Uuid := {s : String // isUuidString s = true}

/-- Embeds `uuid.Parse`: succeeds exactly on well-formed identifier strings. -/
def uuidParse (s : String) : Option Uuid :=
  if h : isUuidString s = true then some ⟨s, h⟩ else none

/-- The canonical text of a stored identifier, as the driver scans a UUID
column into a string. -/
def uuidText (u : Uuid) : String := u.val

/-! ## Scalar codec (internal/db helper functions)

Encoders take the Go-side optional value and produce the driver argument
(`nil` ↦ SQL NULL); decoders take the scanned nullable value and produce
the Go-side optional value. -/

/-- Embeds `nullableUUID` (disputes.go): nil pointer ↦ NULL, else the value. -/
def nullableUUID : Option Uuid → Option Uuid
  | none => none
  | some v => some v

/-- Embeds `uuidPtrNullable` (disputes.go): NULL ↦ nil; otherwise `uuid.Parse`,
with a parse failure mapped to nil — not surfaced as an error. -/
def uuidPtrNullable : Option String → Option Uuid
  | none => none
  | some s =>
    match uuidParse s with
    | none => none
    | some v => some v

/-- Embeds `nullableString` (disputes.go). -/
def nullableString : Option String → Option String
  | none => none
  | some v => some v

/-- Embeds `nullableTime` (disputes.go). -/
def nullableTime : Option GoTime → Option GoTime
  | none => none
  | some v => some v

/-- Embeds `nullableFloat` (disputes.go). -/
def nullableFloat : Option Float64 → Option Float64
  | none => none
  | some v => some v

/-- Embeds `nullableBytes` (disputes.go): a zero-length slice encodes as NULL. -/
def nullableBytes (b : Bytes) : Option Bytes :=
  if b.length = 0 then none else some b

/-- Embeds `nullableInt16` (disputes.go). -/
def nullableInt16 : Option GoInt16 → Option GoInt16
  | none => none
  | some v => some v

/-- Modelled from the spec: the `nullableBool` encoder is called by
CargoLoadRepository but its definition is not among the repository's
source files; per the Scalar Codec contract, `encode_optional(v)` produces
storage NULL when absent and the underlying value otherwise. -/
def nullableBool : Option Bool → Option Bool
  | none => none
  | some v => some v

/-- Embeds `stringPtr` (disputes.go). -/
def stringPtr : Option String → Option String
  | none => none
  | some v => some v

/-- Embeds `timePtr` (disputes.go). -/
def timePtr : Option GoTime → Option GoTime
  | none => none
  | some v => some v

/-- Embeds `floatPtr` (disputes.go). -/
def floatPtr : Option Float64 → Option Float64
  | none => none
  | some v => some v

/-- Embeds `defaultString` (disputes.go): decode with fallback on NULL. -/
def defaultString (ns : Option String) (fallback : String) : String :=
  match ns with
  | some v => v
  | none => fallback

/-- Embeds `bytesOrNil` (disputes.go): zero-length scan result ↦ nil; otherwise a
copy of the scanned bytes (the copy is the identity on the value). -/
def bytesOrNil (b : Bytes) : Bytes :=
  if b.length = 0 then [] else b

/-- Embeds `int16Ptr` (disputes.go). -/
def int16Ptr : Option GoInt16 → Option GoInt16
  | none => none
  | some v => some v

/-- SQL `COALESCE(x, d)` on one nullable argument. -/
def coalesce {α : Type} (x : Option α) (d : α) : α :=
  match x with
  | some v => v
  | none => d

/-- What a nullable UUID column written by `nullableUUID` scans back as
(`sql.NullString`): NULL stays NULL, a stored identifier yields its text. -/
def storedUuidText : Option Uuid → Option String
  | none => none
  | some u => some (uuidText u)

/-- What a nullable bytea/jsonb column written by `nullableBytes` scans
back as (`[]byte`): NULL scans to a nil slice. -/
def scannedBytes : Option Bytes → Bytes
  | none => []
  | some b => b

/-! ## Error model

`sql.ErrNoRows` from `QueryRow.Scan` is `notFound`; a `uuid.Parse` failure
surfaced by a Retrieve is `decodeFault`; a statement the store rejects
(e.g. one naming a column that does not exist in the schema) is
`execError`. -/

inductive RepoError where
  | notFound
  | decodeFault
  | execError
deriving DecidableEq, Repr

/-! ## Payment (unnamed payments repository file; schema table
`shipman.payments`) -/

/-- The Go `Payment` struct. -/
structure Payment where
  id : Uuid
  charterDetailId : Uuid
  voyageId : Option Uuid
  category : String
  dueDate : Option GoTime
  paidAt : Option GoTime
  amount : Float64
  currency : String
  status : String
  paymentMethod : Option String
  reference : Option String
  notes : Option String
  createdAt : GoTime
  updatedAt : GoTime
deriving DecidableEq, Repr

/-- A stored `shipman.payments` row. `charter_detail_id` is supplied on
every insert and scanned into a plain `uuid.UUID`; the optional
`voyage_id` is kept as the raw text the driver scans into
`sql.NullString`, so that a malformed stored identifier is
representable. -/
structure PaymentRow where
  id : Uuid
  charterDetailId : Uuid
  voyageId : Option String
  category : String
  dueDate : Option GoTime
  paidAt : Option GoTime
  amount : Float64
  currency : String
  status : String
  paymentMethod : Option String
  reference : Option String
  notes : Option String
  createdAt : GoTime
  updatedAt : GoTime
deriving DecidableEq, Repr

/-- Embeds `PaymentRepository.Create`: the INSERT with
`COALESCE($3,'general') / COALESCE($7,'USD') / COALESCE($8,'pending')`,
whose arguments 3, 7 and 8 are `nullableString(&p.Category)`,
`nullableString(&p.Currency)` and `nullableString(&p.Status)` — addresses
of struct fields, hence never nil. The store assigns `newId` and sets both
timestamps to `now`; `RETURNING id, category, currency, status,
created_at, updated_at` is scanned back into the entity. Result: the
persisted row and the updated caller-visible entity. -/
def paymentCreate (now : GoTime) (newId : Uuid) (p : Payment) :
    PaymentRow × Payment :=
  let row : PaymentRow :=
    { id := newId
      charterDetailId := p.charterDetailId
      voyageId := (nullableUUID p.voyageId).map uuidText
      category := coalesce (nullableString (some p.category)) "general"
      dueDate := nullableTime p.dueDate
      paidAt := nullableTime p.paidAt
      amount := p.amount
      currency := coalesce (nullableString (some p.currency)) "USD"
      status := coalesce (nullableString (some p.status)) "pending"
      paymentMethod := nullableString p.paymentMethod
      reference := nullableString p.reference
      notes := nullableString p.notes
      createdAt := now
      updatedAt := now }
  ( row,
    { p with
        id := row.id
        category := row.category
        currency := row.currency
        status := row.status
        createdAt := row.createdAt
        updatedAt := row.updatedAt } )

/-- Embeds `PaymentRepository.Retrieve`: select by id (`sql.ErrNoRows` when no
row matches), then decode; a stored `voyage_id` string that fails
`uuid.Parse` aborts the read with the parse error. -/
def paymentRetrieve (id : Uuid) (table : List PaymentRow) :
    Except RepoError Payment :=
  match table.find? (fun r => decide (r.id = id)) with
  | none => .error .notFound
  | some r =>
    match r.voyageId with
    | some s =>
      match uuidParse s with
      | none => .error .decodeFault
      | some u =>
        .ok
          { id := r.id
            charterDetailId := r.charterDetailId
            voyageId := some u
            category := r.category
            dueDate := timePtr r.dueDate
            paidAt := timePtr r.paidAt
            amount := r.amount
            currency := r.currency
            status := r.status
            paymentMethod := stringPtr r.paymentMethod
            reference := stringPtr r.reference
            notes := stringPtr r.notes
            createdAt := r.createdAt
            updatedAt := r.updatedAt }
    | none =>
      .ok
        { id := r.id
          charterDetailId := r.charterDetailId
          voyageId := none
          category := r.category
          dueDate := timePtr r.dueDate
          paidAt := timePtr r.paidAt
          amount := r.amount
          currency := r.currency
          status := r.status
          paymentMethod := stringPtr r.paymentMethod
          reference := stringPtr r.reference
          notes := stringPtr r.notes
          createdAt := r.createdAt
          updatedAt := r.updatedAt }

/-- Embeds `PaymentRepository.Delete`: `DELETE FROM shipman.payments WHERE id =
$1` via `ExecContext`; the affected-row count is discarded, so the call
succeeds whether or not a row matched. -/
def paymentDelete (id : Uuid) (table : List PaymentRow) :
    Except RepoError (List PaymentRow) :=
  .ok (table.filter (fun r => !decide (r.id = id)))

/-! ## CharterDetail (internal/db/charter_details.go; schema table
`shipman.charter_details`) -/

/-- The Go `CharterDetail` struct. -/
structure CharterDetail where
  id : Uuid
  createdByUserId : Option Uuid
  title : String
  charterReferenceCode : Option String
  vesselName : Option String
  counterpartyName : Option String
  status : String
  startDate : Option GoTime
  endDate : Option GoTime
  laytimeAllowanceHours : Option Float64
  demurrageRate : Option Float64
  demurrageCurrency : Option String
  fuelClause : Option String
  paymentTerms : Option String
  aiStatus : String
  aiDocumentPath : Option String
  aiExtractedTerms : Bytes
  lastReviewedAt : Option GoTime
  notes : Option String
  createdAt : GoTime
  updatedAt : GoTime
deriving DecidableEq, Repr

/-- A stored `shipman.charter_details` row; the optional
`created_by_user_id` is kept as the raw text scanned into
`sql.NullString`. -/
structure CharterRow where
  id : Uuid
  createdByUserId : Option String
  title : String
  charterReferenceCode : Option String
  vesselName : Option String
  counterpartyName : Option String
  status : String
  startDate : Option GoTime
  endDate : Option GoTime
  laytimeAllowanceHours : Option Float64
  demurrageRate : Option Float64
  demurrageCurrency : Option String
  fuelClause : Option String
  paymentTerms : Option String
  aiStatus : String
  aiDocumentPath : Option String
  aiExtractedTerms : Option Bytes
  lastReviewedAt : Option GoTime
  notes : Option String
  createdAt : GoTime
  updatedAt : GoTime
deriving DecidableEq, Repr

/-- Embeds `CharterDetailRepository.Create`: the Go side first replaces an empty
`Status` with "draft" and an empty `AIStatus` with "pending", then binds
the results (never NULL) under `COALESCE($6,'draft')` and
`COALESCE($14,'pending')`; `RETURNING id, status, ai_status, created_at,
updated_at` is scanned back into the entity. -/
def charterCreate (now : GoTime) (newId : Uuid) (detail : CharterDetail) :
    CharterRow × CharterDetail :=
  let statusArg := if detail.status = "" then "draft" else detail.status
  let aiStatusArg := if detail.aiStatus = "" then "pending" else detail.aiStatus
  let row : CharterRow :=
    { id := newId
      createdByUserId := (nullableUUID detail.createdByUserId).map uuidText
      title := detail.title
      charterReferenceCode := nullableString detail.charterReferenceCode
      vesselName := nullableString detail.vesselName
      counterpartyName := nullableString detail.counterpartyName
      status := coalesce (some statusArg) "draft"
      startDate := nullableTime detail.startDate
      endDate := nullableTime detail.endDate
      laytimeAllowanceHours := nullableFloat detail.laytimeAllowanceHours
      demurrageRate := nullableFloat detail.demurrageRate
      demurrageCurrency := nullableString detail.demurrageCurrency
      fuelClause := nullableString detail.fuelClause
      paymentTerms := nullableString detail.paymentTerms
      aiStatus := coalesce (some aiStatusArg) "pending"
      aiDocumentPath := nullableString detail.aiDocumentPath
      aiExtractedTerms := nullableBytes detail.aiExtractedTerms
      lastReviewedAt := nullableTime detail.lastReviewedAt
      notes := nullableString detail.notes
      createdAt := now
      updatedAt := now }
  ( row,
    { detail with
        id := row.id
        status := row.status
        aiStatus := row.aiStatus
        createdAt := row.createdAt
        updatedAt := row.updatedAt } )

/-- Embeds `CharterDetailRepository.Retrieve`: select by id, then decode; a
stored `created_by_user_id` string that fails `uuid.Parse` aborts the
read with the parse error. -/
def charterRetrieve (id : Uuid) (table : List CharterRow) :
    Except RepoError CharterDetail :=
  match table.find? (fun r => decide (r.id = id)) with
  | none => .error .notFound
  | some r =>
    let rest : Option Uuid → CharterDetail := fun creator =>
      { id := r.id
        createdByUserId := creator
        title := r.title
        charterReferenceCode := stringPtr r.charterReferenceCode
        vesselName := stringPtr r.vesselName
        counterpartyName := stringPtr r.counterpartyName
        status := defaultString (some r.status) "draft"
        startDate := timePtr r.startDate
        endDate := timePtr r.endDate
        laytimeAllowanceHours := floatPtr r.laytimeAllowanceHours
        demurrageRate := floatPtr r.demurrageRate
        demurrageCurrency := stringPtr r.demurrageCurrency
        fuelClause := stringPtr r.fuelClause
        paymentTerms := stringPtr r.paymentTerms
        aiStatus := defaultString (some r.aiStatus) "pending"
        aiDocumentPath := stringPtr r.aiDocumentPath
        aiExtractedTerms := bytesOrNil (scannedBytes r.aiExtractedTerms)
        lastReviewedAt := timePtr r.lastReviewedAt
        notes := stringPtr r.notes
        createdAt := r.createdAt
        updatedAt := r.updatedAt }
    match r.createdByUserId with
    | some s =>
      match uuidParse s with
      | none => .error .decodeFault
      | some u => .ok (rest (some u))
    | none => .ok (rest none)

/-- The effect of `CharterDetailRepository.Update`'s SET clause on one
matched row, followed by the `set_updated_at` trigger: every column in the
SET list is overwritten from the entity (optional fields go through their
encoders), `updated_at` becomes the store's current time; `id`,
`created_by_user_id` and `created_at` are not in the SET list. -/
def applyCharterUpdate (now : GoTime) (d : CharterDetail) (r : CharterRow) :
    CharterRow :=
  { r with
      title := d.title
      charterReferenceCode := nullableString d.charterReferenceCode
      vesselName := nullableString d.vesselName
      counterpartyName := nullableString d.counterpartyName
      status := d.status
      startDate := nullableTime d.startDate
      endDate := nullableTime d.endDate
      laytimeAllowanceHours := nullableFloat d.laytimeAllowanceHours
      demurrageRate := nullableFloat d.demurrageRate
      demurrageCurrency := nullableString d.demurrageCurrency
      fuelClause := nullableString d.fuelClause
      paymentTerms := nullableString d.paymentTerms
      aiStatus := d.aiStatus
      aiDocumentPath := nullableString d.aiDocumentPath
      aiExtractedTerms := nullableBytes d.aiExtractedTerms
      lastReviewedAt := nullableTime d.lastReviewedAt
      notes := nullableString d.notes
      updatedAt := now }

/-- Embeds `CharterDetailRepository.Update`: the UPDATE touches every row whose
id matches (the primary key); `RETURNING updated_at` through
`QueryRow.Scan` yields `sql.ErrNoRows` when nothing matched. -/
def charterUpdate (now : GoTime) (d : CharterDetail) (table : List CharterRow) :
    Except RepoError (List CharterRow × GoTime) :=
  if table.any (fun r => decide (r.id = d.id)) then
    .ok
      ( table.map (fun r => if r.id = d.id then applyCharterUpdate now d r else r),
        now )
  else
    .error .notFound

/-- Embeds `CharterDetailRepository.Delete`: `ExecContext` discards the
affected-row count, so the call succeeds whether or not a row matched. -/
def charterDelete (id : Uuid) (table : List CharterRow) :
    Except RepoError (List CharterRow) :=
  .ok (table.filter (fun r => !decide (r.id = id)))

/-! ## Dispute (internal/db/disputes.go; schema table `shipman.disputes`) -/

/-- The Go `Dispute` struct. -/
structure Dispute where
  id : Uuid
  charterDetailId : Uuid
  voyageId : Option Uuid
  paymentId : Option Uuid
  laytimeEntryId : Option Uuid
  raisedByOrgId : Uuid
  assignedToOrgId : Option Uuid
  subject : String
  description : Option String
  claimedAmount : Option Float64
  currency : Option String
  status : String
  resolutionNotes : Option String
  createdAt : GoTime
  updatedAt : GoTime
deriving DecidableEq, Repr

/-- A stored `shipman.disputes` row; the four optional identifier columns
are kept as the raw text scanned into `sql.NullString`. -/
structure DisputeRow where
  id : Uuid
  charterDetailId : Uuid
  voyageId : Option String
  paymentId : Option String
  laytimeEntryId : Option String
  raisedByOrgId : Uuid
  assignedToOrgId : Option String
  subject : String
  description : Option String
  claimedAmount : Option Float64
  currency : Option String
  status : String
  resolutionNotes : Option String
  createdAt : GoTime
  updatedAt : GoTime
deriving DecidableEq, Repr

/-- Embeds `DisputeRepository.Retrieve`: select by id, then decode every optional
identifier with `uuidPtrNullable` — a malformed stored value becomes nil,
no error is surfaced — and the status with `defaultString(status,
"open")`. -/
def disputeRetrieve (id : Uuid) (table : List DisputeRow) :
    Except RepoError Dispute :=
  match table.find? (fun r => decide (r.id = id)) with
  | none => .error .notFound
  | some r =>
    .ok
      { id := r.id
        charterDetailId := r.charterDetailId
        voyageId := uuidPtrNullable r.voyageId
        paymentId := uuidPtrNullable r.paymentId
        laytimeEntryId := uuidPtrNullable r.laytimeEntryId
        raisedByOrgId := r.raisedByOrgId
        assignedToOrgId := uuidPtrNullable r.assignedToOrgId
        subject := r.subject
        description := stringPtr r.description
        claimedAmount := floatPtr r.claimedAmount
        currency := stringPtr r.currency
        status := defaultString (some r.status) "open"
        resolutionNotes := stringPtr r.resolutionNotes
        createdAt := r.createdAt
        updatedAt := r.updatedAt }

/-! ## LaytimeEntry (internal/db/laytime_entries.go; schema table
`shipman.laytime_entries`) -/

/-- The Go `LaytimeEntry` struct. -/
structure LaytimeEntry where
  id : Uuid
  charterDetailId : Uuid
  voyageId : Option Uuid
  portName : String
  activity : String
  startedAt : GoTime
  endedAt : Option GoTime
  hoursCounted : Option Float64
  remarks : Option String
  createdAt : GoTime
  updatedAt : GoTime
deriving DecidableEq, Repr

/-- A stored `shipman.laytime_entries` row. Rows are only inserted through
`Create`, which always supplies `charter_detail_id`, `port_name`,
`activity` and `started_at`, so those carry plain values as in the Go
struct; the optional `voyage_id` is kept as raw text. -/
structure LaytimeRow where
  id : Uuid
  charterDetailId : Uuid
  voyageId : Option String
  portName : String
  activity : String
  startedAt : GoTime
  endedAt : Option GoTime
  hoursCounted : Option Float64
  remarks : Option String
  createdAt : GoTime
  updatedAt : GoTime
deriving DecidableEq, Repr

/-- Embeds `LaytimeEntryRepository.Retrieve`: select by id, then decode; a stored
`voyage_id` string that fails `uuid.Parse` aborts the read with the parse
error. -/
def laytimeRetrieve (id : Uuid) (table : List LaytimeRow) :
    Except RepoError LaytimeEntry :=
  match table.find? (fun r => decide (r.id = id)) with
  | none => .error .notFound
  | some r =>
    let rest : Option Uuid → LaytimeEntry := fun voy =>
      { id := r.id
        charterDetailId := r.charterDetailId
        voyageId := voy
        portName := r.portName
        activity := r.activity
        startedAt := r.startedAt
        endedAt := timePtr r.endedAt
        hoursCounted := floatPtr r.hoursCounted
        remarks := stringPtr r.remarks
        createdAt := r.createdAt
        updatedAt := r.updatedAt }
    match r.voyageId with
    | some s =>
      match uuidParse s with
      | none => .error .decodeFault
      | some u => .ok (rest (some u))
    | none => .ok (rest none)

/-! ## SQL ordering

`ORDER BY <timestamp column> NULLS LAST, created_at {DESC|ASC}` as used by
the list queries: the primary sort key ascending with NULL keys after all
non-NULL keys, ties broken on `created_at` (descending when `tieDesc`). -/

/-- The total preorder realised by `ORDER BY key NULLS LAST, created_at`.
An element is `(key, created_at)`. -/
def nullsLastLe (tieDesc : Bool) (a b : Option GoTime × GoTime) : Bool :=
  match a.1, b.1 with
  | some x, some y =>
    decide (x < y) ||
      (decide (x = y) && (if tieDesc then decide (b.2 ≤ a.2) else decide (a.2 ≤ b.2)))
  | some _, none => true
  | none, some _ => false
  | none, none => if tieDesc then decide (b.2 ≤ a.2) else decide (a.2 ≤ b.2)

/-! ## Voyage (internal/db/voyages.go; schema table `shipman.voyages`) -/

/-- The Go `Voyage` struct. -/
structure Voyage where
  id : Uuid
  charterDetailId : Uuid
  voyageNumber : Option String
  vesselName : Option String
  departurePort : Option String
  arrivalPort : Option String
  plannedDeparture : Option GoTime
  plannedArrival : Option GoTime
  actualDeparture : Option GoTime
  actualArrival : Option GoTime
  distanceNm : Option Float64
  timeAtSeaHours : Option Float64
  fuelConsumedMt : Option Float64
  fuelType : Option String
  weatherSummary : Option String
  status : String
  notes : Option String
  createdAt : GoTime
  updatedAt : GoTime
deriving DecidableEq, Repr

/-- A stored `shipman.voyages` row. Rows are only inserted through
`Create`, which always supplies `charter_detail_id`, and every read scans
it into a plain `uuid.UUID`. -/
structure VoyageRow where
  id : Uuid
  charterDetailId : Uuid
  voyageNumber : Option String
  vesselName : Option String
  departurePort : Option String
  arrivalPort : Option String
  plannedDeparture : Option GoTime
  plannedArrival : Option GoTime
  actualDeparture : Option GoTime
  actualArrival : Option GoTime
  distanceNm : Option Float64
  timeAtSeaHours : Option Float64
  fuelConsumedMt : Option Float64
  fuelType : Option String
  weatherSummary : Option String
  status : String
  notes : Option String
  createdAt : GoTime
  updatedAt : GoTime
deriving DecidableEq, Repr

/-- The per-row scan of `VoyageRepository.ListByCharter`, which selects
`id, charter_detail_id, voyage_number, status, planned_departure_at,
planned_arrival_at, created_at, updated_at`; the remaining entity fields
keep their Go zero values. -/
def voyageListDecode (r : VoyageRow) : Voyage :=
  { id := r.id
    charterDetailId := r.charterDetailId
    voyageNumber := stringPtr r.voyageNumber
    vesselName := none
    departurePort := none
    arrivalPort := none
    plannedDeparture := timePtr r.plannedDeparture
    plannedArrival := timePtr r.plannedArrival
    actualDeparture := none
    actualArrival := none
    distanceNm := none
    timeAtSeaHours := none
    fuelConsumedMt := none
    fuelType := none
    weatherSummary := none
    status := defaultString (some r.status) "planned"
    notes := none
    createdAt := r.createdAt
    updatedAt := r.updatedAt }

/-- Embeds `VoyageRepository.ListByCharter`: `WHERE charter_detail_id = $1 ORDER
BY planned_departure_at NULLS LAST, created_at DESC`. -/
def voyageListByCharter (cid : Uuid) (table : List VoyageRow) : List Voyage :=
  ((table.filter (fun r => decide (r.charterDetailId = cid))).insertionSort
      (fun a b =>
        nullsLastLe true (a.plannedDeparture, a.createdAt)
          (b.plannedDeparture, b.createdAt) = true)).map
    voyageListDecode

/-- Embeds `VoyageRepository.Update`: its SET clause names the columns
`eta_load_port` and `eta_discharge_port`, which do not exist in
`shipman.voyages` (schema.sql and the initial migration define
`planned_departure_at` / `planned_arrival_at`, and no migration adds the
`eta_*` columns), so the store rejects the statement and the call fails
before touching any row. -/
def voyageUpdate (_now : GoTime) (_v : Voyage) (_table : List VoyageRow) :
    Except RepoError (List VoyageRow × GoTime) :=
  .error .execError

/-! ## VoyagePort (unnamed voyage-ports repository file; schema table
`shipman.voyage_ports`) -/

/-- The Go `VoyagePort` struct. -/
structure VoyagePort where
  id : Uuid
  voyageId : Uuid
  portName : String
  portCountry : Option String
  portUNLocode : Option String
  latitude : Option Float64
  longitude : Option Float64
  arrivedAt : Option GoTime
  departedAt : Option GoTime
  laytimeHours : Option Float64
  cargoOperations : Option String
  notes : Option String
  createdAt : GoTime
  updatedAt : GoTime
deriving DecidableEq, Repr

/-- A stored `shipman.voyage_ports` row. Rows are only inserted through
`Create`, which always supplies `voyage_id` and `port_name`, and every
read scans them into plain Go values. -/
structure VoyagePortRow where
  id : Uuid
  voyageId : Uuid
  portName : String
  portCountry : Option String
  portUNLocode : Option String
  latitude : Option Float64
  longitude : Option Float64
  arrivedAt : Option GoTime
  departedAt : Option GoTime
  laytimeHours : Option Float64
  cargoOperations : Option String
  notes : Option String
  createdAt : GoTime
  updatedAt : GoTime
deriving DecidableEq, Repr

/-- The scan shared by `VoyagePortRepository.Retrieve` and
`ListByVoyage`, both of which select the full column list. -/
def voyagePortDecode (r : VoyagePortRow) : VoyagePort :=
  { id := r.id
    voyageId := r.voyageId
    portName := r.portName
    portCountry := stringPtr r.portCountry
    portUNLocode := stringPtr r.portUNLocode
    latitude := floatPtr r.latitude
    longitude := floatPtr r.longitude
    arrivedAt := timePtr r.arrivedAt
    departedAt := timePtr r.departedAt
    laytimeHours := floatPtr r.laytimeHours
    cargoOperations := stringPtr r.cargoOperations
    notes := stringPtr r.notes
    createdAt := r.createdAt
    updatedAt := r.updatedAt }

/-- Embeds `VoyagePortRepository.Retrieve`: select by id; `sql.ErrNoRows` when no
row matches. -/
def voyagePortRetrieve (id : Uuid) (table : List VoyagePortRow) :
    Except RepoError VoyagePort :=
  match table.find? (fun r => decide (r.id = id)) with
  | none => .error .notFound
  | some r => .ok (voyagePortDecode r)

/-- Embeds `VoyagePortRepository.ListByVoyage`: `WHERE voyage_id = $1 ORDER BY
arrived_at NULLS LAST, created_at`. -/
def voyagePortListByVoyage (vid : Uuid) (table : List VoyagePortRow) :
    Except RepoError (List VoyagePort) :=
  .ok
    (((table.filter (fun r => decide (r.voyageId = vid))).insertionSort
        (fun a b =>
          nullsLastLe false (a.arrivedAt, a.createdAt)
            (b.arrivedAt, b.createdAt) = true)).map
      voyagePortDecode)

/-! ## ShipPosition (internal/db/ship_positions.go; schema table
`shipman.ship_positions`) -/

/-- The Go `ShipPosition` struct. -/
structure ShipPosition where
  id : Uuid
  voyageId : Uuid
  recordedAt : GoTime
  latitude : Float64
  longitude : Float64
  speedKnots : Option Float64
  heading : Option Float64
  distanceLoggedNm : Option Float64
  fuelRemainingMt : Option Float64
  source : String
  remarks : Option String
  createdAt : GoTime
  updatedAt : GoTime
deriving DecidableEq, Repr

/-- A stored `shipman.ship_positions` row. Rows are only inserted through
`Create`, which always supplies `voyage_id`, and every read scans it into
a plain `uuid.UUID`. -/
structure ShipPositionRow where
  id : Uuid
  voyageId : Uuid
  recordedAt : GoTime
  latitude : Float64
  longitude : Float64
  speedKnots : Option Float64
  heading : Option Float64
  distanceLoggedNm : Option Float64
  fuelRemainingMt : Option Float64
  source : String
  remarks : Option String
  createdAt : GoTime
  updatedAt : GoTime
deriving DecidableEq, Repr

/-- Embeds `ShipPositionRepository.Retrieve`: select by id, then decode
(`defaultString(source, "manual")` on the status-like column). -/
def shipPositionRetrieve (id : Uuid) (table : List ShipPositionRow) :
    Except RepoError ShipPosition :=
  match table.find? (fun r => decide (r.id = id)) with
  | none => .error .notFound
  | some r =>
    .ok
      { id := r.id
        voyageId := r.voyageId
        recordedAt := r.recordedAt
        latitude := r.latitude
        longitude := r.longitude
        speedKnots := floatPtr r.speedKnots
        heading := floatPtr r.heading
        distanceLoggedNm := floatPtr r.distanceLoggedNm
        fuelRemainingMt := floatPtr r.fuelRemainingMt
        source := defaultString (some r.source) "manual"
        remarks := stringPtr r.remarks
        createdAt := r.createdAt
        updatedAt := r.updatedAt }

/-! ## CargoLoad (unnamed cargo-loads repository file; table
`shipman.cargo_loads` from the cargo-loads migration) -/

/-- The Go `CargoLoad` struct. -/
structure CargoLoad where
  id : Uuid
  voyageId : Uuid
  loadPort : Option String
  dischargePort : Option String
  commodity : Option String
  quantity : Option Float64
  unit : Option String
  stowagePlan : Bytes
  hazardous : Option Bool
  notes : Option String
  createdAt : GoTime
  updatedAt : GoTime
deriving DecidableEq, Repr

/-- A stored `shipman.cargo_loads` row (`voyage_id` is NOT NULL in the
cargo-loads migration). -/
structure CargoLoadRow where
  id : Uuid
  voyageId : Uuid
  loadPort : Option String
  dischargePort : Option String
  commodity : Option String
  quantity : Option Float64
  unit : Option String
  stowagePlan : Option Bytes
  hazardous : Option Bool
  notes : Option String
  createdAt : GoTime
  updatedAt : GoTime
deriving DecidableEq, Repr

/-- Embeds `CargoLoadRepository.Retrieve`: select by id, then decode
(`bytesOrNil` on the stowage blob, the hazardous flag copied when the
scanned value is non-NULL). -/
def cargoLoadRetrieve (id : Uuid) (table : List CargoLoadRow) :
    Except RepoError CargoLoad :=
  match table.find? (fun r => decide (r.id = id)) with
  | none => .error .notFound
  | some r =>
    .ok
      { id := r.id
        voyageId := r.voyageId
        loadPort := stringPtr r.loadPort
        dischargePort := stringPtr r.dischargePort
        commodity := stringPtr r.commodity
        quantity := floatPtr r.quantity
        unit := stringPtr r.unit
        stowagePlan := bytesOrNil (scannedBytes r.stowagePlan)
        hazardous :=
          match r.hazardous with
          | some v => some v
          | none => none
        notes := stringPtr r.notes
        createdAt := r.createdAt
        updatedAt := r.updatedAt }

/-- SQL `col = COALESCE(param, col)` on a nullable column: a NULL
parameter keeps the stored value. -/
def coalesceCol {α : Type} (param : Option α) (old : Option α) : Option α :=
  match param with
  | some v => some v
  | none => old

/-- The effect of `CargoLoadRepository.Update`'s SET clause on one matched
row, followed by the trigger-equivalent refresh of `updated_at`: every
editable column is `COALESCE($n, column)`, so a parameter the encoders
turned into NULL keeps the stored value. -/
def applyCargoUpdate (now : GoTime) (load : CargoLoad) (r : CargoLoadRow) :
    CargoLoadRow :=
  { r with
      loadPort := coalesceCol (nullableString load.loadPort) r.loadPort
      dischargePort := coalesceCol (nullableString load.dischargePort) r.dischargePort
      commodity := coalesceCol (nullableString load.commodity) r.commodity
      quantity := coalesceCol (nullableFloat load.quantity) r.quantity
      unit := coalesceCol (nullableString load.unit) r.unit
      stowagePlan := coalesceCol (nullableBytes load.stowagePlan) r.stowagePlan
      hazardous := coalesceCol (nullableBool load.hazardous) r.hazardous
      notes := coalesceCol (nullableString load.notes) r.notes
      updatedAt := now }

/-- Embeds `CargoLoadRepository.Update`: the UPDATE touches every row whose id
matches; `RETURNING updated_at` through `QueryRow.Scan` yields
`sql.ErrNoRows` when nothing matched. -/
def cargoLoadUpdate (now : GoTime) (load : CargoLoad) (table : List CargoLoadRow) :
    Except RepoError (List CargoLoadRow × GoTime) :=
  if table.any (fun r => decide (r.id = load.id)) then
    .ok
      ( table.map (fun r => if r.id = load.id then applyCargoUpdate now load r else r),
        now )
  else
    .error .notFound

/-! ## Store-level deletion of a voyage -/

/-- The tables affected by deleting a voyage. -/
structure Store where
  voyages : List VoyageRow
  voyagePorts : List VoyagePortRow
  shipPositions : List ShipPositionRow
  cargoLoads : List CargoLoadRow
  laytimeEntries : List LaytimeRow
deriving Repr

/-- The `ON DELETE SET NULL` action on one laytime entry when voyage `id`
is deleted. -/
def laytimeSetNull (id : Uuid) (r : LaytimeRow) : LaytimeRow :=
  if r.voyageId = some (uuidText id) then { r with voyageId := none } else r

/-- Embeds `VoyageRepository.Delete` (`DELETE FROM shipman.voyages WHERE id =
$1`) together with the store's declared foreign-key actions: `voyage_ports`,
`ship_positions` and `cargo_loads` reference voyages `ON DELETE CASCADE`,
`laytime_entries.voyage_id` is `ON DELETE SET NULL`. -/
def deleteVoyage (id : Uuid) (s : Store) : Store :=
  { voyages := s.voyages.filter (fun r => !decide (r.id = id))
    voyagePorts := s.voyagePorts.filter (fun r => !decide (r.voyageId = id))
    shipPositions := s.shipPositions.filter (fun r => !decide (r.voyageId = id))
    cargoLoads := s.cargoLoads.filter (fun r => !decide (r.voyageId = id))
    laytimeEntries := s.laytimeEntries.map (laytimeSetNull id) }

/-- The per-row scan of `PaymentRepository.ListByCharter`, which selects
`id, charter_detail_id, category, amount, status, due_date, paid_at,
created_at, updated_at`; the remaining entity fields keep their Go zero
values. -/
def paymentListDecode (r : PaymentRow) : Payment :=
  { id := r.id
    charterDetailId := r.charterDetailId
    voyageId := none
    category := r.category
    dueDate := timePtr r.dueDate
    paidAt := timePtr r.paidAt
    amount := r.amount
    currency := ""
    status := r.status
    paymentMethod := none
    reference := none
    notes := none
    createdAt := r.createdAt
    updatedAt := r.updatedAt }

/-- Embeds `PaymentRepository.ListByCharter`: `WHERE charter_detail_id = $1 ORDER
BY due_date NULLS LAST, created_at DESC`; with no matching row the loop
body never runs and the nil slice is returned with a nil error. -/
def paymentListByCharter (cid : Uuid) (table : List PaymentRow) :
    Except RepoError (List Payment) :=
  .ok
    (((table.filter (fun r => decide (r.charterDetailId = cid))).insertionSort
        (fun a b =>
          nullsLastLe true (a.dueDate, a.createdAt) (b.dueDate, b.createdAt) = true)).map
      paymentListDecode)

/-! ## Specification predicates

Named relations used to state the update claims; they speak about stored
rows before/after an update in the spec's vocabulary. -/

/-- Frame property of one charter row under an update issued for entity
`d` at store time `now`: identifier and creation timestamp are unchanged,
a matched row's update timestamp strictly increases (store time having
advanced past the row's last write), an unmatched row is untouched. -/
def charterUpdateFrame (now : GoTime) (d : CharterDetail)
    (r rNew : CharterRow) : Prop :=
  rNew.id = r.id ∧ rNew.createdAt = r.createdAt ∧
    (r.id = d.id → r.updatedAt < now → r.updatedAt < rNew.updatedAt) ∧
    (¬ r.id = d.id → rNew = r)

/-- Frame property of one cargo-load row under an update issued for
entity `load` at store time `now`. -/
def cargoUpdateFrame (now : GoTime) (load : CargoLoad)
    (r rNew : CargoLoadRow) : Prop :=
  rNew.id = r.id ∧ rNew.createdAt = r.createdAt ∧
    (r.id = load.id → r.updatedAt < now → r.updatedAt < rNew.updatedAt) ∧
    (¬ r.id = load.id → rNew = r)

/-- Full-row overwrite of a matched charter row: every column of the SET
list equals the supplied entity value (absent optional fields stored as
NULL), the update timestamp becomes the store time, identifier and
creation timestamp are unchanged. -/
def charterFullOverwrite (now : GoTime) (d : CharterDetail)
    (r rNew : CharterRow) : Prop :=
  r.id = d.id →
    (rNew.title = d.title ∧
     rNew.charterReferenceCode = d.charterReferenceCode ∧
     rNew.vesselName = d.vesselName ∧
     rNew.counterpartyName = d.counterpartyName ∧
     rNew.status = d.status ∧
     rNew.startDate = d.startDate ∧
     rNew.endDate = d.endDate ∧
     rNew.laytimeAllowanceHours = d.laytimeAllowanceHours ∧
     rNew.demurrageRate = d.demurrageRate ∧
     rNew.demurrageCurrency = d.demurrageCurrency ∧
     rNew.fuelClause = d.fuelClause ∧
     rNew.paymentTerms = d.paymentTerms ∧
     rNew.aiStatus = d.aiStatus ∧
     rNew.aiDocumentPath = d.aiDocumentPath ∧
     (d.aiExtractedTerms = [] → rNew.aiExtractedTerms = none) ∧
     (¬ d.aiExtractedTerms = [] → rNew.aiExtractedTerms = some d.aiExtractedTerms) ∧
     rNew.lastReviewedAt = d.lastReviewedAt ∧
     rNew.notes = d.notes ∧
     rNew.updatedAt = now ∧ rNew.id = r.id ∧ rNew.createdAt = r.createdAt)

/-- Keep-existing-if-absent patch of a matched cargo-load row: each
optional column keeps its stored value when the supplied field is absent
and takes the supplied value when present; the update timestamp becomes
the store time; identifier, parent reference and creation timestamp are
unchanged. -/
def cargoKeepIfAbsent (now : GoTime) (load : CargoLoad)
    (r rNew : CargoLoadRow) : Prop :=
  r.id = load.id →
    ((load.loadPort = none → rNew.loadPort = r.loadPort) ∧
     (∀ v, load.loadPort = some v → rNew.loadPort = some v) ∧
     (load.dischargePort = none → rNew.dischargePort = r.dischargePort) ∧
     (∀ v, load.dischargePort = some v → rNew.dischargePort = some v) ∧
     (load.commodity = none → rNew.commodity = r.commodity) ∧
     (∀ v, load.commodity = some v → rNew.commodity = some v) ∧
     (load.quantity = none → rNew.quantity = r.quantity) ∧
     (∀ v, load.quantity = some v → rNew.quantity = some v) ∧
     (load.unit = none → rNew.unit = r.unit) ∧
     (∀ v, load.unit = some v → rNew.unit = some v) ∧
     (load.stowagePlan = [] → rNew.stowagePlan = r.stowagePlan) ∧
     (¬ load.stowagePlan = [] → rNew.stowagePlan = some load.stowagePlan) ∧
     (load.hazardous = none → rNew.hazardous = r.hazardous) ∧
     (∀ v, load.hazardous = some v → rNew.hazardous = some v) ∧
     (load.notes = none → rNew.notes = r.notes) ∧
     (∀ v, load.notes = some v → rNew.notes = some v) ∧
     rNew.updatedAt = now ∧ rNew.id = r.id ∧ rNew.voyageId = r.voyageId ∧
     rNew.createdAt = r.createdAt)

/-! ## Concrete sample values (witness material) -/

/-- The Go zero `uuid.UUID` in canonical form. -/
def uuidZero : Uuid := ⟨"00000000-0000-0000-0000-000000000000", by decide⟩

def uuidA : Uuid := ⟨"aaaaaaaa-aaaa-aaaa-aaaa-aaaaaaaaaaaa", by decide⟩

def uuidB : Uuid := ⟨"bbbbbbbb-bbbb-bbbb-bbbb-bbbbbbbbbbbb", by decide⟩

def uuidC : Uuid := ⟨"cccccccc-cccc-cccc-cccc-cccccccccccc", by decide⟩

def uuidD : Uuid := ⟨"dddddddd-dddd-dddd-dddd-dddddddddddd", by decide⟩

/-- A payment handed to `Create` with its category, currency and status
left at the Go zero value (the empty string). -/
def paymentNoDefaults : Payment :=
  { id := uuidZero
    charterDetailId := uuidB
    voyageId := none
    category := ""
    dueDate := none
    paidAt := none
    amount := ⟨100⟩
    currency := ""
    status := ""
    paymentMethod := none
    reference := none
    notes := none
    createdAt := 0
    updatedAt := 0 }

/-- A charter detail handed to `Create` with both status fields left at
the Go zero value. -/
def charterNoStatus : CharterDetail :=
  { id := uuidZero
    createdByUserId := none
    title := "t"
    charterReferenceCode := none
    vesselName := none
    counterpartyName := none
    status := ""
    startDate := none
    endDate := none
    laytimeAllowanceHours := none
    demurrageRate := none
    demurrageCurrency := none
    fuelClause := none
    paymentTerms := none
    aiStatus := ""
    aiDocumentPath := none
    aiExtractedTerms := []
    lastReviewedAt := none
    notes := none
    createdAt := 0
    updatedAt := 0 }

/-- A stored dispute row whose `voyage_id` text is not a valid
identifier. -/
def malformedDisputeRow : DisputeRow :=
  { id := uuidA
    charterDetailId := uuidB
    voyageId := some "not-a-uuid"
    paymentId := none
    laytimeEntryId := none
    raisedByOrgId := uuidC
    assignedToOrgId := none
    subject := "s"
    description := none
    claimedAmount := none
    currency := none
    status := "open"
    resolutionNotes := none
    createdAt := 1
    updatedAt := 1 }

/-- A stored payment row whose `voyage_id` text is not a valid
identifier. -/
def malformedPaymentRow : PaymentRow :=
  { id := uuidA
    charterDetailId := uuidB
    voyageId := some "not-a-uuid"
    category := "general"
    dueDate := none
    paidAt := none
    amount := ⟨100⟩
    currency := "USD"
    status := "pending"
    paymentMethod := none
    reference := none
    notes := none
    createdAt := 1
    updatedAt := 1 }

/-- A charter entity used to drive a concrete `Update`. -/
def charterUpd : CharterDetail :=
  { id := uuidA
    createdByUserId := none
    title := "t2"
    charterReferenceCode := some "ref"
    vesselName := none
    counterpartyName := none
    status := "active"
    startDate := some 10
    endDate := none
    laytimeAllowanceHours := none
    demurrageRate := none
    demurrageCurrency := none
    fuelClause := none
    paymentTerms := none
    aiStatus := "done"
    aiDocumentPath := none
    aiExtractedTerms := []
    lastReviewedAt := none
    notes := none
    createdAt := 0
    updatedAt := 0 }

/-- A stored charter row with id `uuidA`, written at store time 1. -/
def charterRowA : CharterRow :=
  { id := uuidA
    createdByUserId := none
    title := "t"
    charterReferenceCode := none
    vesselName := none
    counterpartyName := none
    status := "draft"
    startDate := none
    endDate := none
    laytimeAllowanceHours := none
    demurrageRate := none
    demurrageCurrency := none
    fuelClause := none
    paymentTerms := none
    aiStatus := "pending"
    aiDocumentPath := none
    aiExtractedTerms := none
    lastReviewedAt := none
    notes := none
    createdAt := 1
    updatedAt := 1 }

/-- A cargo-load entity handed to `Update` with every optional field
absent. -/
def cargoUpdInput : CargoLoad :=
  { id := uuidA
    voyageId := uuidB
    loadPort := none
    dischargePort := none
    commodity := none
    quantity := none
    unit := none
    stowagePlan := []
    hazardous := none
    notes := none
    createdAt := 0
    updatedAt := 0 }

/-- A stored cargo-load row with id `uuidA` and non-NULL notes. -/
def cargoOldRow : CargoLoadRow :=
  { id := uuidA
    voyageId := uuidB
    loadPort := some "Rotterdam"
    dischargePort := none
    commodity := none
    quantity := none
    unit := none
    stowagePlan := none
    hazardous := none
    notes := some "old"
    createdAt := 1
    updatedAt := 1 }

/-- A stored voyage row with id `uuidA`. -/
def voyRowA : VoyageRow :=
  { id := uuidA
    charterDetailId := uuidB
    voyageNumber := none
    vesselName := none
    departurePort := none
    arrivalPort := none
    plannedDeparture := none
    plannedArrival := none
    actualDeparture := none
    actualArrival := none
    distanceNm := none
    timeAtSeaHours := none
    fuelConsumedMt := none
    fuelType := none
    weatherSummary := none
    status := "planned"
    notes := none
    createdAt := 1
    updatedAt := 1 }

/-- A stored voyage-port row belonging to voyage `uuidA`. -/
def portRowC : VoyagePortRow :=
  { id := uuidC
    voyageId := uuidA
    portName := "Piraeus"
    portCountry := none
    portUNLocode := none
    latitude := none
    longitude := none
    arrivedAt := none
    departedAt := none
    laytimeHours := none
    cargoOperations := none
    notes := none
    createdAt := 1
    updatedAt := 1 }

/-- A stored ship-position row belonging to voyage `uuidA`. -/
def posRowC : ShipPositionRow :=
  { id := uuidC
    voyageId := uuidA
    recordedAt := 1
    latitude := ⟨1⟩
    longitude := ⟨2⟩
    speedKnots := none
    heading := none
    distanceLoggedNm := none
    fuelRemainingMt := none
    source := "manual"
    remarks := none
    createdAt := 1
    updatedAt := 1 }

/-- A stored cargo-load row belonging to voyage `uuidA`. -/
def cargoRowC : CargoLoadRow :=
  { id := uuidC
    voyageId := uuidA
    loadPort := none
    dischargePort := none
    commodity := none
    quantity := none
    unit := none
    stowagePlan := none
    hazardous := none
    notes := none
    createdAt := 1
    updatedAt := 1 }

/-- A stored laytime entry referencing voyage `uuidA`. -/
def layRowD : LaytimeRow :=
  { id := uuidD
    charterDetailId := uuidB
    voyageId := some (uuidText uuidA)
    portName := "Piraeus"
    activity := "loading"
    startedAt := 1
    endedAt := none
    hoursCounted := none
    remarks := none
    createdAt := 1
    updatedAt := 1 }

/-- A small store: voyage `uuidA` with one port, one position, one cargo
load and one laytime entry referencing it. -/
def sampleStore : Store :=
  { voyages := [voyRowA]
    voyagePorts := [portRowC]
    shipPositions := [posRowC]
    cargoLoads := [cargoRowC]
    laytimeEntries := [layRowD] }

/-- Three stored voyage rows of charter `uuidB`: two dated, one with a
NULL planned departure. -/
def voyageRowsSample : List VoyageRow :=
  [ { id := uuidA
      charterDetailId := uuidB
      voyageNumber := some "V1"
      vesselName := none
      departurePort := none
      arrivalPort := none
      plannedDeparture := some 20
      plannedArrival := none
      actualDeparture := none
      actualArrival := none
      distanceNm := none
      timeAtSeaHours := none
      fuelConsumedMt := none
      fuelType := none
      weatherSummary := none
      status := "planned"
      notes := none
      createdAt := 1
      updatedAt := 1 },
    { id := uuidC
      charterDetailId := uuidB
      voyageNumber := some "V2"
      vesselName := none
      departurePort := none
      arrivalPort := none
      plannedDeparture := none
      plannedArrival := none
      actualDeparture := none
      actualArrival := none
      distanceNm := none
      timeAtSeaHours := none
      fuelConsumedMt := none
      fuelType := none
      weatherSummary := none
      status := "planned"
      notes := none
      createdAt := 2
      updatedAt := 2 },
    { id := uuidD
      charterDetailId := uuidB
      voyageNumber := some "V3"
      vesselName := none
      departurePort := none
      arrivalPort := none
      plannedDeparture := some 10
      plannedArrival := none
      actualDeparture := none
      actualArrival := none
      distanceNm := none
      timeAtSeaHours := none
      fuelConsumedMt := none
      fuelType := none
      weatherSummary := none
      status := "planned"
      notes := none
      createdAt := 3
      updatedAt := 3 } ]

/-! ## Theorems -/

/-! ### Shared helper lemmas -/

theorem nullableString_eq (o : Option String) : nullableString o = o := by
  cases o <;> rfl

theorem nullableTime_eq (o : Option GoTime) : nullableTime o = o := by
  cases o <;> rfl

theorem nullableFloat_eq (o : Option Float64) : nullableFloat o = o := by
  cases o <;> rfl

theorem nullableBool_eq (o : Option Bool) : nullableBool o = o := by
  cases o <;> rfl

theorem timePtr_eq (o : Option GoTime) : timePtr o = o := by
  cases o <;> rfl

theorem stringPtr_eq (o : Option String) : stringPtr o = o := by
  cases o <;> rfl

theorem floatPtr_eq (o : Option Float64) : floatPtr o = o := by
  cases o <;> rfl

theorem coalesceCol_keep {α : Type} (p old : Option α) (h : p = none) :
    coalesceCol p old = old := by
  subst h; rfl

theorem coalesceCol_take {α : Type} (p old : Option α) (v : α) (h : p = some v) :
    coalesceCol p old = some v := by
  subst h; rfl

/-- In a list whose projected identifiers are distinct, searching for the
identifier of a member finds exactly that member. -/
theorem find_by_id_eq_some {α : Type} (idOf : α → Uuid) :
    ∀ (l : List α) (e : α), e ∈ l → (l.map idOf).Nodup →
      l.find? (fun r => decide (idOf r = idOf e)) = some e := by
  intro l
  induction l with
  | nil => intro e he _; cases he
  | cons h tl ih =>
    intro e he hnd
    rw [List.map_cons, List.nodup_cons] at hnd
    rcases List.mem_cons.mp he with rfl | hmem
    · simp [List.find?_cons]
    · have hne : ¬ idOf h = idOf e := by
        intro heq
        exact hnd.1 (heq ▸ List.mem_map_of_mem idOf hmem)
      rw [List.find?_cons]
      simp only [hne, decide_eq_false_iff_not, decide_eq_true_eq, if_neg]
      · exact ih e hmem hnd.2

/-! ## C3 -/

/-- C3: for every optional scalar type handled by the codec helpers
(string, time, float, int16, uuid, byte blob), decoding an encoded absent
value yields absence and decoding an encoded present value `v` yields
`present v` — the round-trip law, e.g. `stringPtr` after `nullableString`
and `bytesOrNil` after `nullableBytes` (for byte blobs, absence is the
zero-length value). -/
theorem codec_round_trip :
    (∀ s : Option String, stringPtr (nullableString s) = s) ∧
    (∀ t : Option GoTime, timePtr (nullableTime t) = t) ∧
    (∀ f : Option Float64, floatPtr (nullableFloat f) = f) ∧
    (∀ i : Option GoInt16, int16Ptr (nullableInt16 i) = i) ∧
    (∀ u : Option Uuid, uuidPtrNullable (storedUuidText (nullableUUID u)) = u) ∧
    (∀ b : Bytes, bytesOrNil (scannedBytes (nullableBytes b)) = b) := by
  refine ⟨?_, ?_, ?_, ?_, ?_, ?_⟩
  · intro s; cases s <;> rfl
  · intro t; cases t <;> rfl
  · intro f; cases f <;> rfl
  · intro i; cases i <;> rfl
  · intro u
    cases u with
    | none => rfl
    | some u =>
      cases u with
      | mk val prop =>
        simp [uuidPtrNullable, storedUuidText, nullableUUID, uuidText, uuidParse, prop]
  · intro b
    cases b with
    | nil => rfl
    | cons x xs => simp [nullableBytes, scannedBytes, bytesOrNil]


/-! ### C1 -/

/-- C1: the claim says a Payment created with no category/currency/status
supplied persists and returns "general"/"USD"/"pending". Evaluating
`PaymentRepository.Create` at such an input (the Go zero value, the empty
string, in each field) shows the empty strings are persisted and returned
instead: the `COALESCE` defaults never fire because the encoder receives
the address of a struct field, which is never nil. -/
theorem paymentCreate_empty_strings_persisted :
    ((paymentCreate 5 uuidA paymentNoDefaults).1.category = "" ∧
     (paymentCreate 5 uuidA paymentNoDefaults).1.currency = "" ∧
     (paymentCreate 5 uuidA paymentNoDefaults).1.status = "" ∧
     (paymentCreate 5 uuidA paymentNoDefaults).2.category = "" ∧
     (paymentCreate 5 uuidA paymentNoDefaults).2.currency = "" ∧
     (paymentCreate 5 uuidA paymentNoDefaults).2.status = "") ∧
    ¬ ((paymentCreate 5 uuidA paymentNoDefaults).1.category = "general" ∨
       (paymentCreate 5 uuidA paymentNoDefaults).1.currency = "USD" ∨
       (paymentCreate 5 uuidA paymentNoDefaults).1.status = "pending") := by
  decide

/-! ### C8 -/

/-- C8: a CharterDetail created with no status and no ai_status supplied
(the empty string in both fields) is persisted and returned with status
"draft" and ai_status "pending". -/
theorem charterCreate_applies_status_defaults :
    ∀ (now : GoTime) (newId : Uuid) (d : CharterDetail),
      d.status = "" → d.aiStatus = "" →
      ((charterCreate now newId d).1.status = "draft" ∧
       (charterCreate now newId d).1.aiStatus = "pending" ∧
       (charterCreate now newId d).2.status = "draft" ∧
       (charterCreate now newId d).2.aiStatus = "pending") := by
  intro now newId d h1 h2
  simp [charterCreate, coalesce, h1, h2]

theorem charterCreate_applies_status_defaults_witness :
    charterNoStatus.status = "" ∧ charterNoStatus.aiStatus = "" ∧
    ((charterCreate 5 uuidA charterNoStatus).1.status = "draft" ∧
     (charterCreate 5 uuidA charterNoStatus).1.aiStatus = "pending" ∧
     (charterCreate 5 uuidA charterNoStatus).2.status = "draft" ∧
     (charterCreate 5 uuidA charterNoStatus).2.aiStatus = "pending") :=
  ⟨rfl, rfl, charterCreate_applies_status_defaults 5 uuidA charterNoStatus rfl rfl⟩

/-! ### C2 -/

/-- C2, counterexample: `DisputeRepository.Retrieve` of a stored row whose
`voyage_id` text does not parse returns the entity with the reference
silently mapped to absence — no error — contradicting the claim that every
Retrieve aborts with a decoding fault on a malformed stored identifier. -/
theorem disputeRetrieve_malformed_id_no_fault :
    disputeRetrieve uuidA [malformedDisputeRow] =
      .ok
        { id := uuidA
          charterDetailId := uuidB
          voyageId := none
          paymentId := none
          laytimeEntryId := none
          raisedByOrgId := uuidC
          assignedToOrgId := none
          subject := "s"
          description := none
          claimedAmount := none
          currency := none
          status := "open"
          resolutionNotes := none
          createdAt := 1
          updatedAt := 1 } := by
  rfl

/-- C2, amended: the Retrieves that parse inline (Payment, CharterDetail,
LaytimeEntry) abort with a decoding fault on a malformed stored
identifier; the Retrieves that decode through `uuidPtrNullable` (Dispute —
and BillOfLading and DemurrageRecord, which use the same helper) silently
map the malformed value to absence and succeed. -/
theorem identifier_decode_fault_partition :
    (∀ (id : Uuid) (t : List PaymentRow) (r : PaymentRow) (s : String),
        t.find? (fun x => decide (x.id = id)) = some r → r.voyageId = some s →
        uuidParse s = none → paymentRetrieve id t = .error .decodeFault) ∧
    (∀ (id : Uuid) (t : List CharterRow) (r : CharterRow) (s : String),
        t.find? (fun x => decide (x.id = id)) = some r →
        r.createdByUserId = some s →
        uuidParse s = none → charterRetrieve id t = .error .decodeFault) ∧
    (∀ (id : Uuid) (t : List LaytimeRow) (r : LaytimeRow) (s : String),
        t.find? (fun x => decide (x.id = id)) = some r → r.voyageId = some s →
        uuidParse s = none → laytimeRetrieve id t = .error .decodeFault) ∧
    (∀ (id : Uuid) (t : List DisputeRow) (r : DisputeRow) (s : String),
        t.find? (fun x => decide (x.id = id)) = some r → r.voyageId = some s →
        uuidParse s = none →
        ∃ d, disputeRetrieve id t = .ok d ∧ d.voyageId = none) ∧
    (∀ s : String, uuidParse s = none → uuidPtrNullable (some s) = none) := by
  refine ⟨?_, ?_, ?_, ?_, ?_⟩
  · intro id t r s h1 h2 h3
    simp [paymentRetrieve, h1, h2, h3]
  · intro id t r s h1 h2 h3
    simp [charterRetrieve, h1, h2, h3]
  · intro id t r s h1 h2 h3
    simp [laytimeRetrieve, h1, h2, h3]
  · intro id t r s h1 h2 h3
    have hok :
        disputeRetrieve id t =
          .ok
            { id := r.id
              charterDetailId := r.charterDetailId
              voyageId := uuidPtrNullable r.voyageId
              paymentId := uuidPtrNullable r.paymentId
              laytimeEntryId := uuidPtrNullable r.laytimeEntryId
              raisedByOrgId := r.raisedByOrgId
              assignedToOrgId := uuidPtrNullable r.assignedToOrgId
              subject := r.subject
              description := stringPtr r.description
              claimedAmount := floatPtr r.claimedAmount
              currency := stringPtr r.currency
              status := defaultString (some r.status) "open"
              resolutionNotes := stringPtr r.resolutionNotes
              createdAt := r.createdAt
              updatedAt := r.updatedAt } := by
      simp [disputeRetrieve, h1]
    exact ⟨_, hok, by simp [uuidPtrNullable, h2, h3]⟩
  · intro s h
    simp [uuidPtrNullable, h]

theorem identifier_decode_fault_partition_witness :
    malformedPaymentRow.voyageId = some "not-a-uuid" ∧
    uuidParse "not-a-uuid" = none ∧
    paymentRetrieve uuidA [malformedPaymentRow] = .error .decodeFault ∧
    (∃ d, disputeRetrieve uuidA [malformedDisputeRow] = .ok d ∧
      d.voyageId = none) ∧
    uuidPtrNullable (some "not-a-uuid") = none :=
  ⟨rfl, by decide,
   identifier_decode_fault_partition.1 uuidA [malformedPaymentRow]
     malformedPaymentRow "not-a-uuid" (by decide) rfl (by decide),
   identifier_decode_fault_partition.2.2.2.1 uuidA [malformedDisputeRow]
     malformedDisputeRow "not-a-uuid" (by decide) rfl (by decide),
   identifier_decode_fault_partition.2.2.2.2 "not-a-uuid" (by decide)⟩

/-! ### C10 -/

/-- C10: a parent-scoped listing (payments by charter, voyage ports by
voyage) with zero matching child rows — including a nonexistent parent —
returns an empty collection and no error, and in general a listing always
succeeds (it never reports NotFound). -/
theorem list_by_parent_empty_ok :
    (∀ (cid : Uuid) (t : List PaymentRow),
        (∀ r ∈ t, ¬ r.charterDetailId = cid) →
        paymentListByCharter cid t = .ok []) ∧
    (∀ (vid : Uuid) (t : List VoyagePortRow),
        (∀ r ∈ t, ¬ r.voyageId = vid) →
        voyagePortListByVoyage vid t = .ok []) ∧
    (∀ (cid : Uuid) (t : List PaymentRow),
        ∃ l, paymentListByCharter cid t = .ok l) ∧
    (∀ (vid : Uuid) (t : List VoyagePortRow),
        ∃ l, voyagePortListByVoyage vid t = .ok l) := by
  refine ⟨?_, ?_, fun cid t => ⟨_, rfl⟩, fun vid t => ⟨_, rfl⟩⟩
  · intro cid t h
    have hf : t.filter (fun r => decide (r.charterDetailId = cid)) = [] := by
      rw [List.filter_eq_nil_iff]
      intro r hr
      simpa using h r hr
    simp [paymentListByCharter, hf, List.insertionSort]
  · intro vid t h
    have hf : t.filter (fun r => decide (r.voyageId = vid)) = [] := by
      rw [List.filter_eq_nil_iff]
      intro r hr
      simpa using h r hr
    simp [voyagePortListByVoyage, hf, List.insertionSort]

theorem list_by_parent_empty_ok_witness :
    (∀ r ∈ [malformedPaymentRow], ¬ r.charterDetailId = uuidA) ∧
    paymentListByCharter uuidA [malformedPaymentRow] = .ok [] ∧
    (∀ r ∈ [portRowC], ¬ r.voyageId = uuidB) ∧
    voyagePortListByVoyage uuidB [portRowC] = .ok [] :=
  ⟨by decide,
   list_by_parent_empty_ok.1 uuidA [malformedPaymentRow] (by decide),
   by decide,
   list_by_parent_empty_ok.2.1 uuidB [portRowC] (by decide)⟩

/-! ### C9 -/

/-- C9: Delete succeeds even when no row carries the identifier (and then
leaves the table unchanged), and deleting twice leaves the store in the
same state as deleting once — shown for the charter-detail and payment
table deletes and for the voyage delete with its cascades. -/
theorem delete_idempotent_total :
    (∀ (id : Uuid) (t : List CharterRow),
        (∀ r ∈ t, ¬ r.id = id) → charterDelete id t = .ok t) ∧
    (∀ (id : Uuid) (t tNew : List CharterRow),
        charterDelete id t = .ok tNew → charterDelete id tNew = .ok tNew) ∧
    (∀ (id : Uuid) (t : List PaymentRow),
        (∀ r ∈ t, ¬ r.id = id) → paymentDelete id t = .ok t) ∧
    (∀ (id : Uuid) (t tNew : List PaymentRow),
        paymentDelete id t = .ok tNew → paymentDelete id tNew = .ok tNew) ∧
    (∀ (id : Uuid) (s : Store),
        deleteVoyage id (deleteVoyage id s) = deleteVoyage id s) := by
  refine ⟨?_, ?_, ?_, ?_, ?_⟩
  · intro id t h
    have : t.filter (fun r => !decide (r.id = id)) = t := by
      rw [List.filter_eq_self]
      intro r hr
      simpa using h r hr
    simp [charterDelete, this]
  · intro id t tNew h
    have htNew : tNew = t.filter (fun r => !decide (r.id = id)) := by
      simpa [charterDelete] using h.symm
    have : tNew.filter (fun r => !decide (r.id = id)) = tNew := by
      rw [List.filter_eq_self]
      intro r hr
      rw [htNew] at hr
      exact (List.mem_filter.mp hr).2
    simp [charterDelete, this]
  · intro id t h
    have : t.filter (fun r => !decide (r.id = id)) = t := by
      rw [List.filter_eq_self]
      intro r hr
      simpa using h r hr
    simp [paymentDelete, this]
  · intro id t tNew h
    have htNew : tNew = t.filter (fun r => !decide (r.id = id)) := by
      simpa [paymentDelete] using h.symm
    have : tNew.filter (fun r => !decide (r.id = id)) = tNew := by
      rw [List.filter_eq_self]
      intro r hr
      rw [htNew] at hr
      exact (List.mem_filter.mp hr).2
    simp [paymentDelete, this]
  · intro id s
    cases s with
    | mk voyages voyagePorts shipPositions cargoLoads laytimeEntries =>
      simp only [deleteVoyage, Store.mk.injEq]
      refine ⟨?_, ?_, ?_, ?_, ?_⟩
      · rw [List.filter_eq_self]
        intro r hr
        exact (List.mem_filter.mp hr).2
      · rw [List.filter_eq_self]
        intro r hr
        exact (List.mem_filter.mp hr).2
      · rw [List.filter_eq_self]
        intro r hr
        exact (List.mem_filter.mp hr).2
      · rw [List.filter_eq_self]
        intro r hr
        exact (List.mem_filter.mp hr).2
      · rw [List.map_map]
        apply List.map_congr_left
        intro r _
        by_cases hv : r.voyageId = some (uuidText id)
        · simp [Function.comp, laytimeSetNull, hv]
        · simp [Function.comp, laytimeSetNull, hv]

theorem delete_idempotent_total_witness :
    (∀ r ∈ [charterRowA], ¬ r.id = uuidB) ∧
    charterDelete uuidB [charterRowA] = .ok [charterRowA] ∧
    charterDelete uuidA [charterRowA] = .ok [] ∧
    charterDelete uuidA ([] : List CharterRow) = .ok [] :=
  ⟨by decide,
   delete_idempotent_total.1 uuidB [charterRowA] (by decide),
   by rfl,
   delete_idempotent_total.2.1 uuidA [charterRowA] [] (by rfl)⟩

/-! ### C4 -/

/-- C4: whenever an Update succeeds, each row it matched keeps its
identifier and creation timestamp and gets an update timestamp strictly
greater than the prior one (store time having advanced past the row's
last write), and unmatched rows are untouched — shown for the
charter-detail and cargo-load updates; `VoyageRepository.Update` never
succeeds at all, its statement naming columns absent from the schema, so
the property holds vacuously there. -/
theorem update_refreshes_frame :
    (∀ (now : GoTime) (d : CharterDetail) (t tNew : List CharterRow) (u : GoTime),
        charterUpdate now d t = .ok (tNew, u) →
        List.Forall₂ (charterUpdateFrame now d) t tNew) ∧
    (∀ (now : GoTime) (load : CargoLoad) (t tNew : List CargoLoadRow) (u : GoTime),
        cargoLoadUpdate now load t = .ok (tNew, u) →
        List.Forall₂ (cargoUpdateFrame now load) t tNew) ∧
    (∀ (now : GoTime) (v : Voyage) (t : List VoyageRow)
        (out : List VoyageRow × GoTime), ¬ voyageUpdate now v t = .ok out) := by
  refine ⟨?_, ?_, ?_⟩
  · intro now d t tNew u h
    unfold charterUpdate at h
    split at h
    · simp only [Except.ok.injEq, Prod.mk.injEq] at h
      obtain ⟨h1, _⟩ := h
      subst h1
      rw [List.forall₂_map_right_iff]
      rw [List.forall₂_same]
      intro x _
      by_cases hid : x.id = d.id
      · rw [if_pos hid]
        exact ⟨rfl, rfl, fun _ hlt => hlt, fun hne => absurd hid hne⟩
      · rw [if_neg hid]
        exact ⟨rfl, rfl, fun h2 _ => absurd h2 hid, fun _ => rfl⟩
    · cases h
  · intro now load t tNew u h
    unfold cargoLoadUpdate at h
    split at h
    · simp only [Except.ok.injEq, Prod.mk.injEq] at h
      obtain ⟨h1, _⟩ := h
      subst h1
      rw [List.forall₂_map_right_iff]
      rw [List.forall₂_same]
      intro x _
      by_cases hid : x.id = load.id
      · rw [if_pos hid]
        exact ⟨rfl, rfl, fun _ hlt => hlt, fun hne => absurd hid hne⟩
      · rw [if_neg hid]
        exact ⟨rfl, rfl, fun h2 _ => absurd h2 hid, fun _ => rfl⟩
    · cases h
  · intro now v t out h
    simp [voyageUpdate] at h

theorem update_refreshes_frame_witness :
    charterUpdate 2 charterUpd [charterRowA] =
      .ok ([applyCharterUpdate 2 charterUpd charterRowA], 2) ∧
    List.Forall₂ (charterUpdateFrame 2 charterUpd) [charterRowA]
      [applyCharterUpdate 2 charterUpd charterRowA] :=
  ⟨by rfl,
   update_refreshes_frame.1 2 charterUpd [charterRowA]
     [applyCharterUpdate 2 charterUpd charterRowA] 2 (by rfl)⟩

/-! ### C5 -/

/-- C5, counterexample: a successful `CargoLoadRepository.Update` whose
entity carries an absent `notes` field leaves the stored non-NULL notes
value in place instead of overwriting the column with NULL, so Update is
not a full-row overwrite there. -/
theorem cargoLoadUpdate_keeps_stored_value :
    cargoLoadUpdate 5 cargoUpdInput [cargoOldRow] =
      .ok ([applyCargoUpdate 5 cargoUpdInput cargoOldRow], 5) ∧
    nullableString cargoUpdInput.notes = none ∧
    ¬ (applyCargoUpdate 5 cargoUpdInput cargoOldRow).notes = none ∧
    (applyCargoUpdate 5 cargoUpdInput cargoOldRow).notes = some "old" :=
  ⟨rfl, rfl, by decide, by decide⟩

/-- C5, amended: `CharterDetailRepository.Update` is a full-row overwrite
of the columns in its SET list (absent optional fields become stored
NULL), with the identifier, the creation timestamp — and the creator
reference, which no update touches — unchanged; `CargoLoadRepository.Update`
instead patches per column, keeping the existing stored value for every
optional field supplied as absent and overwriting with the supplied value
otherwise. -/
theorem update_full_overwrite_vs_cargo_patch :
    (∀ (now : GoTime) (d : CharterDetail) (t tNew : List CharterRow) (u : GoTime),
        charterUpdate now d t = .ok (tNew, u) →
        List.Forall₂ (charterFullOverwrite now d) t tNew) ∧
    (∀ (now : GoTime) (load : CargoLoad) (t tNew : List CargoLoadRow) (u : GoTime),
        cargoLoadUpdate now load t = .ok (tNew, u) →
        List.Forall₂ (cargoKeepIfAbsent now load) t tNew) := by
  constructor
  · intro now d t tNew u h
    unfold charterUpdate at h
    split at h
    · simp only [Except.ok.injEq, Prod.mk.injEq] at h
      obtain ⟨h1, _⟩ := h
      subst h1
      rw [List.forall₂_map_right_iff]
      rw [List.forall₂_same]
      intro x _
      by_cases hid : x.id = d.id
      · rw [if_pos hid]
        intro _
        refine ⟨rfl, nullableString_eq _, nullableString_eq _, nullableString_eq _,
          rfl, nullableTime_eq _, nullableTime_eq _, nullableFloat_eq _,
          nullableFloat_eq _, nullableString_eq _, nullableString_eq _,
          nullableString_eq _, rfl, nullableString_eq _, fun he => ?_,
          fun hne => ?_, nullableTime_eq _, nullableString_eq _, rfl, rfl, rfl⟩
        · simp [applyCharterUpdate, nullableBytes, he]
        · simp [applyCharterUpdate, nullableBytes, List.length_eq_zero, hne]
      · rw [if_neg hid]
        intro h2
        exact absurd h2 hid
    · cases h
  · intro now load t tNew u h
    unfold cargoLoadUpdate at h
    split at h
    · simp only [Except.ok.injEq, Prod.mk.injEq] at h
      obtain ⟨h1, _⟩ := h
      subst h1
      rw [List.forall₂_map_right_iff]
      rw [List.forall₂_same]
      intro x _
      by_cases hid : x.id = load.id
      · rw [if_pos hid]
        intro _
        refine ⟨fun h1 => ?_, fun v hv => ?_, fun h1 => ?_, fun v hv => ?_,
          fun h1 => ?_, fun v hv => ?_, fun h1 => ?_, fun v hv => ?_,
          fun h1 => ?_, fun v hv => ?_, fun h1 => ?_, fun hne => ?_,
          fun h1 => ?_, fun v hv => ?_, fun h1 => ?_, fun v hv => ?_,
          rfl, rfl, rfl, rfl⟩ <;>
        simp_all [applyCargoUpdate, coalesceCol, nullableString_eq,
          nullableFloat_eq, nullableBool_eq, nullableBytes, List.length_eq_zero]
      · rw [if_neg hid]
        intro h2
        exact absurd h2 hid
    · cases h

theorem update_full_overwrite_vs_cargo_patch_witness :
    cargoLoadUpdate 5 cargoUpdInput [cargoOldRow] =
      .ok ([applyCargoUpdate 5 cargoUpdInput cargoOldRow], 5) ∧
    List.Forall₂ (cargoKeepIfAbsent 5 cargoUpdInput) [cargoOldRow]
      [applyCargoUpdate 5 cargoUpdInput cargoOldRow] :=
  ⟨by rfl,
   update_full_overwrite_vs_cargo_patch.2 5 cargoUpdInput [cargoOldRow]
     [applyCargoUpdate 5 cargoUpdInput cargoOldRow] 5 (by rfl)⟩

/-! ### C6 -/

/-- C6: after a voyage is deleted, every laytime entry that referenced it
is still retrievable but with its voyage reference now absent, while every
voyage-port, ship-position and cargo-load child of the voyage is gone —
retrieving it by id reports NotFound (identifier columns being primary
keys, the tables hold no duplicate ids). -/
theorem voyage_delete_cascades_and_nulls :
    ∀ (s : Store) (vid : Uuid),
      ((s.laytimeEntries.map LaytimeRow.id).Nodup →
        ∀ e ∈ s.laytimeEntries, e.voyageId = some (uuidText vid) →
          ∃ le, laytimeRetrieve e.id (deleteVoyage vid s).laytimeEntries = .ok le ∧
            le.voyageId = none) ∧
      ((s.voyagePorts.map VoyagePortRow.id).Nodup →
        ∀ r ∈ s.voyagePorts, r.voyageId = vid →
          voyagePortRetrieve r.id (deleteVoyage vid s).voyagePorts =
            .error .notFound) ∧
      ((s.shipPositions.map ShipPositionRow.id).Nodup →
        ∀ r ∈ s.shipPositions, r.voyageId = vid →
          shipPositionRetrieve r.id (deleteVoyage vid s).shipPositions =
            .error .notFound) ∧
      ((s.cargoLoads.map CargoLoadRow.id).Nodup →
        ∀ r ∈ s.cargoLoads, r.voyageId = vid →
          cargoLoadRetrieve r.id (deleteVoyage vid s).cargoLoads =
            .error .notFound) := by
  intro s vid
  refine ⟨?_, ?_, ?_, ?_⟩
  · intro hnd e he hv
    have hfid : ∀ r : LaytimeRow, (laytimeSetNull vid r).id = r.id := by
      intro r
      by_cases h : r.voyageId = some (uuidText vid) <;> simp [laytimeSetNull, h]
    have hfind :
        (s.laytimeEntries.map (laytimeSetNull vid)).find?
            (fun r => decide (r.id = e.id)) =
          some (laytimeSetNull vid e) := by
      rw [List.find?_map]
      have hcomp :
          ((fun r : LaytimeRow => decide (r.id = e.id)) ∘ laytimeSetNull vid) =
            fun r : LaytimeRow => decide (LaytimeRow.id r = LaytimeRow.id e) := by
        funext r
        simp [Function.comp, hfid r]
      rw [hcomp, find_by_id_eq_some LaytimeRow.id s.laytimeEntries e he hnd]
      rfl
    have hfe : laytimeSetNull vid e = { e with voyageId := none } := by
      simp [laytimeSetNull, hv]
    have hok :
        laytimeRetrieve e.id (deleteVoyage vid s).laytimeEntries =
          .ok
            { id := e.id
              charterDetailId := e.charterDetailId
              voyageId := none
              portName := e.portName
              activity := e.activity
              startedAt := e.startedAt
              endedAt := timePtr e.endedAt
              hoursCounted := floatPtr e.hoursCounted
              remarks := stringPtr e.remarks
              createdAt := e.createdAt
              updatedAt := e.updatedAt } := by
      simp only [deleteVoyage]
      rw [hfe] at hfind
      simp [laytimeRetrieve, hfind]
    exact ⟨_, hok, rfl⟩
  · intro hnd r hr hv
    have hnone :
        ((s.voyagePorts.filter (fun x => !decide (x.voyageId = vid))).find?
          (fun x => decide (x.id = r.id))) = none := by
      rw [List.find?_eq_none]
      intro x hx
      simp only [decide_eq_true_eq]
      intro hxid
      have hxmem := (List.mem_filter.mp hx).1
      have hxpred := (List.mem_filter.mp hx).2
      have hxr : x = r := List.inj_on_of_nodup_map hnd hxmem hr hxid
      rw [hxr, hv] at hxpred
      simp at hxpred
    simp only [deleteVoyage]
    simp [voyagePortRetrieve, hnone]
  · intro hnd r hr hv
    have hnone :
        ((s.shipPositions.filter (fun x => !decide (x.voyageId = vid))).find?
          (fun x => decide (x.id = r.id))) = none := by
      rw [List.find?_eq_none]
      intro x hx
      simp only [decide_eq_true_eq]
      intro hxid
      have hxmem := (List.mem_filter.mp hx).1
      have hxpred := (List.mem_filter.mp hx).2
      have hxr : x = r := List.inj_on_of_nodup_map hnd hxmem hr hxid
      rw [hxr, hv] at hxpred
      simp at hxpred
    simp only [deleteVoyage]
    simp [shipPositionRetrieve, hnone]
  · intro hnd r hr hv
    have hnone :
        ((s.cargoLoads.filter (fun x => !decide (x.voyageId = vid))).find?
          (fun x => decide (x.id = r.id))) = none := by
      rw [List.find?_eq_none]
      intro x hx
      simp only [decide_eq_true_eq]
      intro hxid
      have hxmem := (List.mem_filter.mp hx).1
      have hxpred := (List.mem_filter.mp hx).2
      have hxr : x = r := List.inj_on_of_nodup_map hnd hxmem hr hxid
      rw [hxr, hv] at hxpred
      simp at hxpred
    simp only [deleteVoyage]
    simp [cargoLoadRetrieve, hnone]

theorem voyage_delete_cascades_and_nulls_witness :
    (sampleStore.laytimeEntries.map LaytimeRow.id).Nodup ∧
    layRowD.voyageId = some (uuidText uuidA) ∧
    (∃ le, laytimeRetrieve layRowD.id (deleteVoyage uuidA sampleStore).laytimeEntries =
        .ok le ∧ le.voyageId = none) ∧
    voyagePortRetrieve portRowC.id (deleteVoyage uuidA sampleStore).voyagePorts =
      .error .notFound ∧
    shipPositionRetrieve posRowC.id (deleteVoyage uuidA sampleStore).shipPositions =
      .error .notFound ∧
    cargoLoadRetrieve cargoRowC.id (deleteVoyage uuidA sampleStore).cargoLoads =
      .error .notFound :=
  ⟨by decide, rfl,
   (voyage_delete_cascades_and_nulls sampleStore uuidA).1 (by decide) layRowD
     (by decide) rfl,
   (voyage_delete_cascades_and_nulls sampleStore uuidA).2.1 (by decide) portRowC
     (by decide) rfl,
   (voyage_delete_cascades_and_nulls sampleStore uuidA).2.2.1 (by decide) posRowC
     (by decide) rfl,
   (voyage_delete_cascades_and_nulls sampleStore uuidA).2.2.2 (by decide) cargoRowC
     (by decide) rfl⟩

/-! ### C7 -/

theorem nullsLastLe_total (d : Bool) (a b : Option GoTime × GoTime) :
    nullsLastLe d a b = true ∨ nullsLastLe d b a = true := by
  obtain ⟨ka, ca⟩ := a
  obtain ⟨kb, cb⟩ := b
  cases ka <;> cases kb <;> cases d <;> simp [nullsLastLe] <;>
    first
      | exact Nat.le_total _ _
      | (rename_i x y
         rcases Nat.lt_trichotomy x y with h | h | h <;>
           rcases Nat.le_total ca cb with hc | hc <;> simp [h, hc])

theorem nullsLastLe_trans (d : Bool) (a b c : Option GoTime × GoTime)
    (hab : nullsLastLe d a b = true) (hbc : nullsLastLe d b c = true) :
    nullsLastLe d a c = true := by
  obtain ⟨ka, ca⟩ := a
  obtain ⟨kb, cb⟩ := b
  obtain ⟨kc, cc⟩ := c
  cases ka <;> cases kb <;> cases kc <;> cases d <;>
    simp [nullsLastLe] at hab hbc ⊢ <;>
    first
      | exact Nat.le_trans hab hbc
      | exact Nat.le_trans hbc hab
      | (rcases hab with h1 | ⟨h1, h1c⟩ <;> rcases hbc with h2 | ⟨h2, h2c⟩
         · exact Or.inl (Nat.lt_trans h1 h2)
         · exact Or.inl (by rw [← h2]; exact h1)
         · exact Or.inl (by rw [h1]; exact h2)
         · exact Or.inr ⟨h1.trans h2, Nat.le_trans h1c h2c⟩)
      | (rcases hab with h1 | ⟨h1, h1c⟩ <;> rcases hbc with h2 | ⟨h2, h2c⟩
         · exact Or.inl (Nat.lt_trans h1 h2)
         · exact Or.inl (by rw [← h2]; exact h1)
         · exact Or.inl (by rw [h1]; exact h2)
         · exact Or.inr ⟨h1.trans h2, Nat.le_trans h2c h1c⟩)

/-- C7: `VoyageRepository.ListByCharter` returns exactly the charter's
voyages (as a permutation of the decoded matching rows, every element
carrying the requested charter id), arranged so that planned departures
are ascending and voyages without a planned departure come after all
voyages that have one. -/
theorem voyage_list_by_charter_ordered :
    ∀ (cid : Uuid) (t : List VoyageRow),
      (voyageListByCharter cid t).Perm
        ((t.filter (fun r => decide (r.charterDetailId = cid))).map
          voyageListDecode) ∧
      (∀ v ∈ voyageListByCharter cid t, v.charterDetailId = cid) ∧
      List.Pairwise
        (fun a b : Voyage =>
          ∀ y, b.plannedDeparture = some y →
            ∃ x, a.plannedDeparture = some x ∧ x ≤ y)
        (voyageListByCharter cid t) := by
  intro cid t
  refine ⟨?_, ?_, ?_⟩
  · exact List.Perm.map voyageListDecode
      (List.perm_insertionSort _ (t.filter (fun r => decide (r.charterDetailId = cid))))
  · intro v hv
    unfold voyageListByCharter at hv
    rw [List.mem_map] at hv
    obtain ⟨r, hr, rfl⟩ := hv
    have hr2 := (List.perm_insertionSort _ _).mem_iff.mp hr
    have := (List.mem_filter.mp hr2).2
    simp only [decide_eq_true_eq] at this
    simpa [voyageListDecode] using this
  · haveI : IsTotal VoyageRow
        (fun a b => nullsLastLe true (a.plannedDeparture, a.createdAt)
          (b.plannedDeparture, b.createdAt) = true) :=
      ⟨fun a b => nullsLastLe_total true _ _⟩
    haveI : IsTrans VoyageRow
        (fun a b => nullsLastLe true (a.plannedDeparture, a.createdAt)
          (b.plannedDeparture, b.createdAt) = true) :=
      ⟨fun a b c hab hbc =>
        nullsLastLe_trans true (a.plannedDeparture, a.createdAt)
          (b.plannedDeparture, b.createdAt) (c.plannedDeparture, c.createdAt)
          hab hbc⟩
    have hs := List.sorted_insertionSort
      (fun a b : VoyageRow => nullsLastLe true (a.plannedDeparture, a.createdAt)
        (b.plannedDeparture, b.createdAt) = true)
      (t.filter (fun r => decide (r.charterDetailId = cid)))
    unfold voyageListByCharter
    rw [List.pairwise_map]
    refine hs.imp ?_
    intro a b hab y hby
    rw [show (voyageListDecode b).plannedDeparture = b.plannedDeparture by
      simp [voyageListDecode, timePtr_eq]] at hby
    cases hpa : a.plannedDeparture with
    | none =>
      exfalso
      rw [hpa, hby] at hab
      simp [nullsLastLe] at hab
    | some x =>
      refine ⟨x, by simp [voyageListDecode, timePtr_eq, hpa], ?_⟩
      rw [hpa, hby] at hab
      simp [nullsLastLe] at hab
      rcases hab with h | ⟨h, _⟩
      · exact Nat.le_of_lt h
      · exact Nat.le_of_eq h

theorem voyage_list_by_charter_ordered_witness :
    (voyageListByCharter uuidB voyageRowsSample).Perm
      ((voyageRowsSample.filter (fun r => decide (r.charterDetailId = uuidB))).map
        voyageListDecode) ∧
    (∀ v ∈ voyageListByCharter uuidB voyageRowsSample,
      v.charterDetailId = uuidB) ∧
    List.Pairwise
      (fun a b : Voyage =>
        ∀ y, b.plannedDeparture = some y →
          ∃ x, a.plannedDeparture = some x ∧ x ≤ y)
      (voyageListByCharter uuidB voyageRowsSample) :=
  voyage_list_by_charter_ordered uuidB voyageRowsSample

end Shipman
